import Mathlib

/-!
Shallow embedding of the `dbent` crate (src/src/lib.rs) and its derive
macro crate (src/dbent-derive/src/lib.rs).

Runtime model: `Key`, the `Keyed`/`Label` capability interfaces (modelled
as explicit dictionaries of functions), the blanket `Tagged`
implementation, the `Entity`, `EntityLabel` and `Many` unions, and the
`Error` enumeration.  Rust references `&T` / `&mut T` are modelled by
values of type `T`; `Box<T>` is modelled by `T`; `Vec<T>` by `List T`;
`Result<T> = Result<T, Error>` by `Except Error T`.

Build-time model: the fragment of the `syn` declaration AST that the
derive macros inspect, and the functions `impl_entity`, `impl_label`,
`single_key`, `argument_type`, `single_label`, `marked_with_label`.
Token streams produced by `quote!` are modelled structurally
(`GeneratedImpl`) or as rendered token strings; `syn::Error` spans are
not modelled, only the diagnostic message is kept.  A Rust `panic!` is
modelled explicitly by the `PanicOr.panicked` outcome, distinct from
returning `Ok`/`Err`.
-/

namespace Dbent

/-- Model of the crate's `Error` enum (src/src/lib.rs lines 394-414). -/
inductive Error where
  | EntityEmpty : Error
  | EntityLabelEmpty : Error
  | EntityNotFetched : Error
  | EntityLabelNotFetched : Error
  | ManyEmpty : Error
  | ManyNotFetched : Error
deriving DecidableEq

/-- Model of `pub type Result<T> = core::result::Result<T, Error>`. -/
abbrev Result (α : Type) : Type := Except Error α

/-- Model of `pub struct Key<K>(pub Option<K>)`. -/
structure Key (K : Type) where
  val : Option K
deriving DecidableEq

/-- Model of `Key::new`: `Self(Some(value))`. -/
def Key.new {K : Type} (value : K) : Key K :=
  ⟨some value⟩

/-- Model of `Deref for Key<K>`: dereferences to the inner `Option<K>`. -/
def Key.deref {K : Type} (k : Key K) : Option K :=
  k.val

/-- Model of `From<Option<K>> for Key<K>`: `Self(value)`. -/
def Key.fromOption {K : Type} (value : Option K) : Key K :=
  ⟨value⟩

/-- Model of `From<&Option<K>> for Key<K>` (clones the inner value). -/
def Key.fromOptionRef {K : Type} (value : Option K) : Key K :=
  ⟨value⟩

/-- Model of `Display for Key<K>`; `render` stands for `K`'s own
`Display` implementation.  Formats the inner value when present and the
literal string "None" when absent. -/
def Key.display {K : Type} (render : K → String) (k : Key K) : String :=
  match k.val with
  | some value => render value
  | none => "None"

/-- Model of `#[derive(Default)]` for `Key<K>`: the inner
`Option<K>` defaults to `None`. -/
def Key.default {K : Type} : Key K :=
  ⟨none⟩

/-- Model of the `Keyed` trait: an implementation for `T` with
`KeyType = K` is a function `key : T → Result (Key K)` (the Rust
method returns `Result<&Key<K>>`). -/
structure KeyedImpl (K T : Type) where
  key : T → Result (Key K)

/-- Model of the `Label` trait: an implementation for `T` with
`LabelType = L` is a function `label : T → Result L`. -/
structure LabelImpl (L T : Type) where
  label : T → Result L

/-- Model of `pub struct Tag { pub key: String, pub label: String }`. -/
structure Tag where
  key : String
  label : String
deriving DecidableEq

/-- Model of the blanket `Tagged::tag` for any `T : Keyed + Label`
(src/src/lib.rs lines 73-80): builds a `Tag` from
`self.key()?.to_string()` (the `Display` of `Key<K>`) and
`self.label()?.to_string()` (the `Display` of `L`), propagating the
first failure. -/
def Tagged.tag {K T L : Type} (kd : KeyedImpl K T) (lb : LabelImpl L T)
    (renderK : K → String) (renderL : L → String) (t : T) : Result Tag :=
  match kd.key t with
  | .error e => .error e
  | .ok k =>
    match lb.label t with
    | .error e => .error e
    | .ok l => .ok { key := Key.display renderK k, label := renderL l }

/-- Model of the blanket `Tagged::has_tag`
(src/src/lib.rs lines 82-84):
`self.key().map(|v| v.is_some()).unwrap_or(false)`. -/
def Tagged.has_tag {K T : Type} (kd : KeyedImpl K T) (t : T) : Bool :=
  match kd.key t with
  | .ok k => k.val.isSome
  | .error _ => false

/-- Model of `pub enum Entity<K, T> { Key(Key<K>), Data(Box<T>), None }`. -/
inductive Entity (K T : Type) where
  | Key : Dbent.Key K → Entity K T
  | Data : T → Entity K T
  | None : Entity K T
deriving DecidableEq

/-- Model of `impl Keyed for Entity<K, T> where T: Keyed<KeyType = K>`
(src/src/lib.rs lines 183-196); `kd` is `T`'s own `Keyed`
implementation. -/
def Entity.key {K T : Type} (kd : KeyedImpl K T) : Entity K T → Result (Dbent.Key K)
  | .Key k => .ok k
  | .Data data => kd.key data
  | .None => .error Error.EntityEmpty

/-- Model of `Entity::data` (src/src/lib.rs lines 200-206). -/
def Entity.data {K T : Type} : Entity K T → Result T
  | .Data data => .ok data
  | .Key _ => .error Error.EntityNotFetched
  | .None => .error Error.EntityEmpty

/-- Model of `Entity::data_mut` (src/src/lib.rs lines 209-215); the
`&mut T` result is modelled as the contained value. -/
def Entity.data_mut {K T : Type} : Entity K T → Result T
  | .Data data => .ok data
  | .Key _ => .error Error.EntityNotFetched
  | .None => .error Error.EntityEmpty

/-- Model of `Entity::is_key`. -/
def Entity.is_key {K T : Type} : Entity K T → Bool
  | .Key _ => true
  | _ => false

/-- Model of `Entity::is_data`. -/
def Entity.is_data {K T : Type} : Entity K T → Bool
  | .Data _ => true
  | _ => false

/-- Model of `Entity::is_none`. -/
def Entity.is_none {K T : Type} : Entity K T → Bool
  | .None => true
  | _ => false

/-- Model of `impl From<T> for Entity<K, T>`: `Self::Data(Box::new(entity))`. -/
def Entity.fromData {K T : Type} (entity : T) : Entity K T :=
  .Data entity

/-- Model of `#[derive(Default)]` for `Entity<K, T>` with `#[default]`
on the `None` variant. -/
def Entity.default {K T : Type} : Entity K T :=
  .None

/-- Model of
`pub enum EntityLabel<K, T, L> { KeyLabel(Key<K>, L), Data(Box<T>), None }`. -/
inductive EntityLabel (K T L : Type) where
  | KeyLabel : Dbent.Key K → L → EntityLabel K T L
  | Data : T → EntityLabel K T L
  | None : EntityLabel K T L
deriving DecidableEq

/-- Model of `impl Keyed for EntityLabel<K, T, L>`
(src/src/lib.rs lines 260-273). -/
def EntityLabel.key {K T L : Type} (kd : KeyedImpl K T) :
    EntityLabel K T L → Result (Dbent.Key K)
  | .KeyLabel k _ => .ok k
  | .Data data => kd.key data
  | .None => .error Error.EntityLabelEmpty

/-- Model of `impl Label for EntityLabel<K, T, L>`
(src/src/lib.rs lines 275-288). -/
def EntityLabel.label {K T L : Type} (lb : LabelImpl L T) :
    EntityLabel K T L → Result L
  | .KeyLabel _ l => .ok l
  | .Data data => lb.label data
  | .None => .error Error.EntityLabelEmpty

/-- Model of `EntityLabel::data` (src/src/lib.rs lines 292-298). -/
def EntityLabel.data {K T L : Type} : EntityLabel K T L → Result T
  | .Data data => .ok data
  | .KeyLabel _ _ => .error Error.EntityLabelNotFetched
  | .None => .error Error.EntityLabelEmpty

/-- Model of `EntityLabel::data_mut` (src/src/lib.rs lines 301-307). -/
def EntityLabel.data_mut {K T L : Type} : EntityLabel K T L → Result T
  | .Data data => .ok data
  | .KeyLabel _ _ => .error Error.EntityLabelNotFetched
  | .None => .error Error.EntityLabelEmpty

/-- Model of `EntityLabel::is_keylabel`. -/
def EntityLabel.is_keylabel {K T L : Type} : EntityLabel K T L → Bool
  | .KeyLabel _ _ => true
  | _ => false

/-- Model of `EntityLabel::is_data`. -/
def EntityLabel.is_data {K T L : Type} : EntityLabel K T L → Bool
  | .Data _ => true
  | _ => false

/-- Model of `EntityLabel::is_none`. -/
def EntityLabel.is_none {K T L : Type} : EntityLabel K T L → Bool
  | .None => true
  | _ => false

/-- Model of `impl From<T> for EntityLabel<K, T, L>`. -/
def EntityLabel.fromData {K T L : Type} (entity : T) : EntityLabel K T L :=
  .Data entity

/-- Model of `#[derive(Default)]` for `EntityLabel` with `#[default]`
on the `None` variant. -/
def EntityLabel.default {K T L : Type} : EntityLabel K T L :=
  .None

/-- Model of `pub enum Many<T> { Data(Vec<T>), NotFetched, None }`. -/
inductive Many (T : Type) where
  | Data : List T → Many T
  | NotFetched : Many T
  | None : Many T
deriving DecidableEq

/-- Model of `Many::data` (src/src/lib.rs lines 350-356). -/
def Many.data {T : Type} : Many T → Result (List T)
  | .Data data => .ok data
  | .NotFetched => .error Error.ManyNotFetched
  | .None => .error Error.ManyEmpty

/-- Model of `Many::data_mut` (src/src/lib.rs lines 359-365). -/
def Many.data_mut {T : Type} : Many T → Result (List T)
  | .Data data => .ok data
  | .NotFetched => .error Error.ManyNotFetched
  | .None => .error Error.ManyEmpty

/-- Model of `Many::is_data`. -/
def Many.is_data {T : Type} : Many T → Bool
  | .Data _ => true
  | _ => false

/-- Model of `Many::is_not_fetched`. -/
def Many.is_not_fetched {T : Type} : Many T → Bool
  | .NotFetched => true
  | _ => false

/-- Model of `Many::is_none`. -/
def Many.is_none {T : Type} : Many T → Bool
  | .None => true
  | _ => false

/-- Model of `impl From<Vec<T>> for Many<T>`: `Self::Data(entities)`. -/
def Many.fromVec {T : Type} (entities : List T) : Many T :=
  .Data entities

/-- Model of `#[derive(Default)]` for `Many<T>` with `#[default]`
on the `None` variant. -/
def Many.default {T : Type} : Many T :=
  .None

/-- Model of `syn::GenericArgument`.  A `Type` argument carries the
rendered token string of the type; the other variants carry the tokens
of a lifetime, a const expression, an associated-type binding, or a
constraint. -/
inductive GenericArgument where
  | Lifetime : String → GenericArgument
  | TypeArg : String → GenericArgument
  | ConstArg : String → GenericArgument
  | Binding : String → GenericArgument
  | Constraint : String → GenericArgument
deriving DecidableEq

/-- Model of `syn::PathArguments`: no arguments, `<...>` arguments, or
`(...) -> ...` arguments. -/
inductive PathArguments where
  | None : PathArguments
  | AngleBracketed : List GenericArgument → PathArguments
  | Parenthesized : PathArguments
deriving DecidableEq

/-- Model of `syn::PathSegment`: an identifier with its path arguments. -/
structure PathSegment where
  ident : String
  arguments : PathArguments
deriving DecidableEq

/-- Model of the fragment of `syn::Type` the derive macros inspect: a
path type with its segments, or any other kind of type. -/
inductive SynType where
  | Path : List PathSegment → SynType
  | Other : SynType
deriving DecidableEq

/-- Model of `syn::Field`: the optional field name, the field type and
the attributes; each attribute is modelled by the outcome of
`attr.path.get_ident()` (`some` identifier for a single-segment path,
`none` otherwise). -/
structure Field where
  ident : Option String
  ty : SynType
  attrs : List (Option String)
deriving DecidableEq

/-- Model of `syn::Fields`: named fields, unnamed (tuple) fields, or a
unit struct. -/
inductive Fields where
  | Named : List Field → Fields
  | Unnamed : List Field → Fields
  | Unit : Fields
deriving DecidableEq

/-- Model of `syn::Data`: a struct with its fields, an enum, or a
union (the derive code only inspects the fields of a struct). -/
inductive Data where
  | Struct : Fields → Data
  | Enum : Data
  | Union : Data
deriving DecidableEq

/-- Model of `syn::DeriveInput`: the declaration's identifier and its
data (generics are not inspected by the validation logic modelled
here). -/
structure DeriveInput where
  ident : String
  data : Data
deriving DecidableEq

/-- Model of `syn::parse::Error`: only the diagnostic message is kept;
the source span the Rust code attaches is not modelled. -/
structure CompileError where
  message : String
deriving DecidableEq

/-- Outcome of a Rust function that may panic: either it returned
normally, or it panicked with a message. -/
inductive PanicOr (α : Type) where
  | returned : α → PanicOr α
  | panicked : String → PanicOr α
deriving DecidableEq

/-- Renders `quote! { #ident }` for an `Option<syn::Ident>`: `Some`
renders the identifier, `None` renders nothing. -/
def identTokens (ident : Option String) : String :=
  match ident with
  | some s => s
  | none => ""

/-- Renders the token string of a `GenericArgument`. -/
def GenericArgument.tokens : GenericArgument → String
  | .Lifetime s => s
  | .TypeArg s => s
  | .ConstArg s => s
  | .Binding s => s
  | .Constraint s => s

/-- Renders the token string of `syn::PathArguments`. -/
def PathArguments.tokens : PathArguments → String
  | .None => ""
  | .AngleBracketed args =>
      "<" ++ String.intercalate ", " (args.map GenericArgument.tokens) ++ ">"
  | .Parenthesized => "(..)"

/-- Renders the token string of a `syn::PathSegment`. -/
def PathSegment.tokens (seg : PathSegment) : String :=
  seg.ident ++ seg.arguments.tokens

/-- Renders the token string of a `syn::Type` (`quote! { #ty }`). -/
def SynType.tokens : SynType → String
  | .Path segments =>
      String.intercalate "::" (segments.map PathSegment.tokens)
  | .Other => "<non-path type>"

/-- Model of `argument_type` (src/dbent-derive/src/lib.rs lines
130-145): extracts the generic argument type for the key.  Only the
FIRST angle-bracketed argument is examined: it must be a type.  The
`field` parameter of the Rust function is used only for error spans,
which are not modelled. -/
def argument_type (args : PathArguments) : Except CompileError String :=
  match args with
  | .AngleBracketed angle_args =>
    match angle_args.head? with
    | none =>
        .error ⟨"#[derive(Entity)] needs the Key to define a single generic argument type"⟩
    | some arg =>
      match arg with
      | .TypeArg gen_ty => .ok gen_ty
      | _ =>
          .error ⟨"#[derive(Entity)] only supports types as generic argument for Key"⟩
  | _ =>
      .error ⟨"#[derive(Entity)] needs the Key to define a single generic argument type"⟩

/-- Model of `single_key` (src/dbent-derive/src/lib.rs lines 98-127):
returns the key type tokens and field identifier tokens if the first
field of the struct is a `Key<T>`.  Requires named fields; takes the
FIRST field, requires its type to be a path whose LAST segment is the
identifier `Key`, and delegates to `argument_type` for the generic
argument. -/
def single_key (fields : Fields) : Except CompileError (String × String) :=
  match fields with
  | .Named named =>
    match named.head? with
    | none =>
        .error ⟨"#[derive(Entity)] needs at least a single Key field defined"⟩
    | some field =>
      match field.ty with
      | .Path segments =>
        match segments.getLast? with
        | none =>
            .error ⟨"#[derive(Entity)] needs at least a single Key field defined; no segments found"⟩
        | some seg =>
          if seg.ident ≠ "Key" then
            .error ⟨"#[derive(Entity)] needs the first field to be a Key; aliasing the Key to something else breaks the macro"⟩
          else
            match argument_type seg.arguments with
            | .error e => .error e
            | .ok ty => .ok (ty, identTokens field.ident)
      | _ =>
          .error ⟨"#[derive(Entity)] needs a single Key field defined as the first field in the struct"⟩
  | _ =>
      .error ⟨"#[derive(Entity)] can only be used on structs with named fields"⟩

/-- Model of `marked_with_label` (src/dbent-derive/src/lib.rs lines
173-183): true when some attribute's path is the single identifier
`label`. -/
def marked_with_label (field : Field) : Bool :=
  field.attrs.any (fun attr => attr = some "label")

/-- Model of `single_label` (src/dbent-derive/src/lib.rs lines
149-170): returns the field type tokens and identifier tokens if
exactly one named field is marked with `#[label]`. -/
def single_label (fields : Fields) : Except CompileError (String × String) :=
  match fields with
  | .Named named =>
    match named.filter marked_with_label with
    | [field] => .ok (field.ty.tokens, identTokens field.ident)
    | _ =>
        .error ⟨"#[derive(Label)] needs to have 1 field marked with #[label]"⟩
  | _ =>
      .error ⟨"#[derive(Label)] can only be used on structs with named fields"⟩

/-- Structural model of the token stream `quote!` produces in
`impl_entity` / `impl_label`: the trait being implemented, the type it
is implemented for, the associated type's tokens, and the field
returned by the generated accessor body `Ok(&self.#ident)`.  The fixed
tokens of the template are determined by these four holes. -/
structure GeneratedImpl where
  trait_name : String
  self_ty : String
  assoc_type : String
  body_field : String
deriving DecidableEq

/-- Model of `impl_entity` (src/dbent-derive/src/lib.rs lines 32-62):
on a struct, validates the fields through `single_key` and returns the
generated `Keyed` implementation or the diagnostic; on any other
declaration it PANICS (`panic!("#[derive(Entity)] can only be used on
structs")`), modelled by the `panicked` outcome. -/
def impl_entity (input : DeriveInput) : PanicOr (Except CompileError GeneratedImpl) :=
  match input.data with
  | .Struct body =>
    .returned
      (match single_key body with
       | .error e => .error e
       | .ok (key_type, key_ident) =>
         .ok { trait_name := "::dbent::Keyed", self_ty := input.ident,
               assoc_type := key_type, body_field := key_ident })
  | _ => .panicked "#[derive(Entity)] can only be used on structs"

/-- Model of `impl_label` (src/dbent-derive/src/lib.rs lines 65-95):
on a struct, validates the fields through `single_label` and returns
the generated `Label` implementation or the diagnostic; on any other
declaration it PANICS (`panic!("#[derive(Label)] can only be used on
structs")`). -/
def impl_label (input : DeriveInput) : PanicOr (Except CompileError GeneratedImpl) :=
  match input.data with
  | .Struct body =>
    .returned
      (match single_label body with
       | .error e => .error e
       | .ok (label_type, label_ident) =>
         .ok { trait_name := "::dbent::Label", self_ty := input.ident,
               assoc_type := label_type, body_field := label_ident })
  | _ => .panicked "#[derive(Label)] can only be used on structs"

/-- Is this outcome a panic? -/
def PanicOr.isPanicked {α : Type} : PanicOr α → Bool
  | .panicked _ => true
  | .returned _ => false

/-- Concrete derive input: a struct whose single field `id` has type
`Key<Int, Int>` (the `Key` path segment carries two type arguments). -/
def keyTwoArgsInput : DeriveInput :=
  { ident := "Model",
    data := Data.Struct (Fields.Named
      [{ ident := some "id",
         ty := SynType.Path
           [{ ident := "Key",
              arguments := PathArguments.AngleBracketed
                [GenericArgument.TypeArg "Int", GenericArgument.TypeArg "Int"] }],
         attrs := [] }]) }

/-- Concrete `Keyed` implementation on `Unit` whose `key` always
succeeds with a present identifier. -/
def keyOkImpl : KeyedImpl Nat Unit :=
  ⟨fun _ => Except.ok (Key.new 1)⟩

/-- Concrete `Label` implementation on `Unit` whose `label` always
fails. -/
def labelFailImpl : LabelImpl String Unit :=
  ⟨fun _ => Except.error Error.EntityLabelEmpty⟩

/-- Concrete `Keyed` implementation on `Unit` whose `key` succeeds
with an absent identifier. -/
def absentKeyImpl : KeyedImpl Nat Unit :=
  ⟨fun _ => Except.ok ⟨none⟩⟩

/-- Concrete `Label` implementation on `Unit` whose `label` always
succeeds with the label "L". -/
def constLabelImpl : LabelImpl String Unit :=
  ⟨fun _ => Except.ok "L"⟩

/-- C1 counterexample: on an enum declaration, `impl_entity` and
`impl_label` PANIC with a fixed message instead of returning a
structured diagnostic, contradicting the claim that a non-struct
declaration yields a diagnostic and never a panic. -/
theorem c1_impl_entity_panics_on_enum :
    impl_entity { ident := "NotAStruct", data := Data.Enum } =
      PanicOr.panicked "#[derive(Entity)] can only be used on structs" ∧
    impl_label { ident := "NotAStruct", data := Data.Enum } =
      PanicOr.panicked "#[derive(Label)] can only be used on structs" :=
  ⟨rfl, rfl⟩

/-- C1 (amended): on a struct declaration both generation procedures
always return generated code or a structured diagnostic and never
panic; on a declaration that is not a struct (an enum or a union) both
procedures panic with a fixed message instead of returning a
diagnostic. -/
theorem c1_struct_inputs_never_panic (input : DeriveInput) :
    (∀ fs, input.data = Data.Struct fs →
      (impl_entity input).isPanicked = false ∧
      (impl_label input).isPanicked = false) ∧
    ((∀ fs, input.data ≠ Data.Struct fs) →
      impl_entity input = PanicOr.panicked "#[derive(Entity)] can only be used on structs" ∧
      impl_label input = PanicOr.panicked "#[derive(Label)] can only be used on structs") := by
  obtain ⟨name, data⟩ := input
  cases data with
  | Struct fs =>
    exact ⟨fun fs2 _ => ⟨rfl, rfl⟩, fun h => absurd rfl (h fs)⟩
  | Enum =>
    exact ⟨fun fs2 h => Data.noConfusion h, fun _ => ⟨rfl, rfl⟩⟩
  | Union =>
    exact ⟨fun fs2 h => Data.noConfusion h, fun _ => ⟨rfl, rfl⟩⟩

/-- C1 witness: both sides of the amended claim instantiated at
concrete inputs (a unit struct and an enum). -/
theorem c1_struct_inputs_never_panic_witness :
    ((impl_entity { ident := "M", data := Data.Struct Fields.Unit }).isPanicked = false ∧
     (impl_label { ident := "M", data := Data.Struct Fields.Unit }).isPanicked = false) ∧
    (impl_entity { ident := "E", data := Data.Enum } =
       PanicOr.panicked "#[derive(Entity)] can only be used on structs" ∧
     impl_label { ident := "E", data := Data.Enum } =
       PanicOr.panicked "#[derive(Label)] can only be used on structs") :=
  ⟨(c1_struct_inputs_never_panic { ident := "M", data := Data.Struct Fields.Unit }).1
      Fields.Unit rfl,
   (c1_struct_inputs_never_panic { ident := "E", data := Data.Enum }).2
      (fun _ h => Data.noConfusion h)⟩

/-- C2 counterexample: a struct whose first field is `Key<Int, Int>`
(two type arguments) is ACCEPTED by `impl_entity`, which emits a
`Keyed` implementation with `KeyType = Int` (the first argument),
contradicting the claim that other than exactly one type argument
yields an error diagnostic. -/
theorem c2_two_type_arguments_accepted :
    impl_entity keyTwoArgsInput =
      PanicOr.returned (Except.ok
        { trait_name := "::dbent::Keyed", self_ty := "Model",
          assoc_type := "Int", body_field := "id" }) := by
  rfl

/-- C2 (amended): `argument_type` returns an error diagnostic when the
`Key` has no angle-bracketed argument list, when the list is empty, or
when the FIRST argument is not a type (a const or a lifetime); but
when the first argument is a type it succeeds with that argument,
ignoring any further arguments. -/
theorem c2_argument_validation :
    argument_type PathArguments.None =
      Except.error ⟨"#[derive(Entity)] needs the Key to define a single generic argument type"⟩ ∧
    argument_type PathArguments.Parenthesized =
      Except.error ⟨"#[derive(Entity)] needs the Key to define a single generic argument type"⟩ ∧
    argument_type (PathArguments.AngleBracketed []) =
      Except.error ⟨"#[derive(Entity)] needs the Key to define a single generic argument type"⟩ ∧
    (∀ (s : String) (rest : List GenericArgument),
      argument_type (PathArguments.AngleBracketed (GenericArgument.ConstArg s :: rest)) =
        Except.error ⟨"#[derive(Entity)] only supports types as generic argument for Key"⟩) ∧
    (∀ (s : String) (rest : List GenericArgument),
      argument_type (PathArguments.AngleBracketed (GenericArgument.Lifetime s :: rest)) =
        Except.error ⟨"#[derive(Entity)] only supports types as generic argument for Key"⟩) ∧
    (∀ (ty : String) (rest : List GenericArgument),
      argument_type (PathArguments.AngleBracketed (GenericArgument.TypeArg ty :: rest)) =
        Except.ok ty) :=
  ⟨rfl, rfl, rfl, fun _ _ => rfl, fun _ _ => rfl, fun _ _ => rfl⟩

/-- C3 counterexample: a record whose `key()` succeeds but whose
`label()` fails has a failing `tag()`, contradicting the claim that
`tag()` succeeds iff `key()` succeeds. -/
theorem c3_tag_fails_while_key_succeeds :
    (keyOkImpl.key ()).isOk = true ∧
    Tagged.tag keyOkImpl labelFailImpl (fun n => toString n) (fun s => s) () =
      Except.error Error.EntityLabelEmpty :=
  ⟨rfl, rfl⟩

/-- C3 (amended): for every record implementing both capabilities,
`tag()` succeeds iff BOTH `key()` and `label()` succeed; and
`has_tag()` is true iff `key()` succeeds and the returned identifier
wrapper holds a present value (`has_tag` degrades failure to
`false`). -/
theorem c3_tag_and_has_tag {K T L : Type} (kd : KeyedImpl K T) (lb : LabelImpl L T)
    (renderK : K → String) (renderL : L → String) (t : T) :
    (Tagged.tag kd lb renderK renderL t).isOk =
      ((kd.key t).isOk && (lb.label t).isOk) ∧
    (Tagged.has_tag kd t = true ↔
      ∃ k, kd.key t = Except.ok k ∧ k.val.isSome = true) := by
  constructor
  · unfold Tagged.tag
    cases hk : kd.key t <;> cases hl : lb.label t <;>
      simp [Except.isOk, Except.toBool]
  · unfold Tagged.has_tag
    cases hk : kd.key t with
    | ok k => simp
    | error e => simp

/-- C3 witness: the amended claim instantiated at a concrete record
whose `key()` succeeds with a present identifier. -/
theorem c3_tag_and_has_tag_witness :
    ((Tagged.tag keyOkImpl constLabelImpl (fun n => toString n) (fun s => s) ()).isOk =
      ((keyOkImpl.key ()).isOk && (constLabelImpl.label ()).isOk) ∧
    (Tagged.has_tag keyOkImpl () = true ↔
      ∃ k, keyOkImpl.key () = Except.ok k ∧ k.val.isSome = true)) :=
  c3_tag_and_has_tag keyOkImpl constLabelImpl (fun n => toString n) (fun s => s) ()

/-- C4: `Entity::key` returns the wrapped identifier in the `Key`
state, delegates to the record's own `key()` in the `Data` state and
fails with `EntityEmpty` in the `None` state; `Entity::data` and
`Entity::data_mut` return the record only in the `Data` state, fail
with `EntityNotFetched` in `Key` and with `EntityEmpty` in `None`. -/
theorem c4_entity_accessors {K T : Type} (kd : KeyedImpl K T) (k : Key K) (t : T) :
    Entity.key kd (Entity.Key k : Entity K T) = Except.ok k ∧
    Entity.key kd (Entity.Data t : Entity K T) = kd.key t ∧
    Entity.key kd (Entity.None : Entity K T) = Except.error Error.EntityEmpty ∧
    Entity.data (Entity.Data t : Entity K T) = Except.ok t ∧
    Entity.data (Entity.Key k : Entity K T) = Except.error Error.EntityNotFetched ∧
    Entity.data (Entity.None : Entity K T) = Except.error Error.EntityEmpty ∧
    Entity.data_mut (Entity.Data t : Entity K T) = Except.ok t ∧
    Entity.data_mut (Entity.Key k : Entity K T) = Except.error Error.EntityNotFetched ∧
    Entity.data_mut (Entity.None : Entity K T) = Except.error Error.EntityEmpty :=
  ⟨rfl, rfl, rfl, rfl, rfl, rfl, rfl, rfl, rfl⟩

/-- C5: `EntityLabel::key` and `EntityLabel::label` return the stored
key and label verbatim in the `KeyLabel` state and delegate to the
record's own capabilities in the `Data` state; both fail with
`EntityLabelEmpty` in the `None` state; `data`/`data_mut` fail with
`EntityLabelNotFetched` in `KeyLabel` and with `EntityLabelEmpty` in
`None`, returning the record only in `Data`. -/
theorem c5_entity_label_accessors {K T L : Type} (kd : KeyedImpl K T)
    (lb : LabelImpl L T) (k : Key K) (l : L) (t : T) :
    EntityLabel.key kd (EntityLabel.KeyLabel k l : EntityLabel K T L) = Except.ok k ∧
    EntityLabel.label lb (EntityLabel.KeyLabel k l : EntityLabel K T L) = Except.ok l ∧
    EntityLabel.key kd (EntityLabel.Data t : EntityLabel K T L) = kd.key t ∧
    EntityLabel.label lb (EntityLabel.Data t : EntityLabel K T L) = lb.label t ∧
    EntityLabel.key kd (EntityLabel.None : EntityLabel K T L) =
      Except.error Error.EntityLabelEmpty ∧
    EntityLabel.label lb (EntityLabel.None : EntityLabel K T L) =
      Except.error Error.EntityLabelEmpty ∧
    EntityLabel.data (EntityLabel.Data t : EntityLabel K T L) = Except.ok t ∧
    EntityLabel.data (EntityLabel.KeyLabel k l : EntityLabel K T L) =
      Except.error Error.EntityLabelNotFetched ∧
    EntityLabel.data (EntityLabel.None : EntityLabel K T L) =
      Except.error Error.EntityLabelEmpty ∧
    EntityLabel.data_mut (EntityLabel.Data t : EntityLabel K T L) = Except.ok t ∧
    EntityLabel.data_mut (EntityLabel.KeyLabel k l : EntityLabel K T L) =
      Except.error Error.EntityLabelNotFetched ∧
    EntityLabel.data_mut (EntityLabel.None : EntityLabel K T L) =
      Except.error Error.EntityLabelEmpty :=
  ⟨rfl, rfl, rfl, rfl, rfl, rfl, rfl, rfl, rfl, rfl, rfl, rfl⟩

/-- C6: `Many::data` and `Many::data_mut` fail with `ManyNotFetched`
in the `NotFetched` state and with `ManyEmpty` in the `None` state
(two distinct error kinds), and in the `Data(seq)` state both
accessors return exactly the stored sequence unchanged. -/
theorem c6_many_accessors {T : Type} (seq : List T) :
    Many.data (Many.Data seq) = Except.ok seq ∧
    Many.data_mut (Many.Data seq) = Except.ok seq ∧
    Many.data (Many.NotFetched : Many T) = Except.error Error.ManyNotFetched ∧
    Many.data_mut (Many.NotFetched : Many T) = Except.error Error.ManyNotFetched ∧
    Many.data (Many.None : Many T) = Except.error Error.ManyEmpty ∧
    Many.data_mut (Many.None : Many T) = Except.error Error.ManyEmpty ∧
    Error.ManyNotFetched ≠ Error.ManyEmpty :=
  ⟨rfl, rfl, rfl, rfl, rfl, rfl, by decide⟩

/-- C7: `Key::new(v)` dereferences to `Some(v)`; `Key::from(None)`
dereferences to `None`; the textual rendering of an absent key is
exactly "None" and of a present key holding `v` equals `v`'s own
rendering. -/
theorem c7_key_construction_and_display {K : Type} (v : K) (render : K → String) :
    (Key.new v).deref = some v ∧
    (Key.fromOption (none : Option K)).deref = (none : Option K) ∧
    Key.display render (Key.fromOption (none : Option K)) = "None" ∧
    Key.display render (Key.new v) = render v :=
  ⟨rfl, rfl, rfl, rfl⟩

/-- C8: default construction yields the absent/empty state for
`Key`, `Entity`, `EntityLabel` and `Many`; converting a raw record or
sequence yields the value-bearing `Data` state. -/
theorem c8_defaults_and_conversions {K T L : Type} (t : T) (seq : List T) :
    (Key.default : Key K).deref = (none : Option K) ∧
    (Entity.default : Entity K T) = Entity.None ∧
    (EntityLabel.default : EntityLabel K T L) = EntityLabel.None ∧
    (Many.default : Many T) = Many.None ∧
    (Entity.fromData t : Entity K T) = Entity.Data t ∧
    (EntityLabel.fromData t : EntityLabel K T L) = EntityLabel.Data t ∧
    Many.fromVec seq = Many.Data seq :=
  ⟨rfl, rfl, rfl, rfl, rfl, rfl, rfl⟩

/-- C10: for every `Entity`, exactly one of `is_key`, `is_data`,
`is_none` is true; for every `EntityLabel`, exactly one of
`is_keylabel`, `is_data`, `is_none`; for every `Many`, exactly one of
`is_data`, `is_not_fetched`, `is_none`. -/
theorem c10_state_predicates_exclusive {K T L : Type} (e : Entity K T)
    (el : EntityLabel K T L) (m : Many T) :
    e.is_key.toNat + e.is_data.toNat + e.is_none.toNat = 1 ∧
    el.is_keylabel.toNat + el.is_data.toNat + el.is_none.toNat = 1 ∧
    m.is_data.toNat + m.is_not_fetched.toNat + m.is_none.toNat = 1 := by
  refine ⟨?_, ?_, ?_⟩
  · cases e <;> rfl
  · cases el <;> rfl
  · cases m <;> rfl

/-- C9: when `key()` succeeds with an ABSENT identifier and `label()`
succeeds, `tag()` still succeeds and its `key` field is the string
"None", while `has_tag()` is false — so a succeeding `tag()` does not
imply `has_tag()`. -/
theorem c9_absent_key_tag {K T L : Type} (kd : KeyedImpl K T) (lb : LabelImpl L T)
    (renderK : K → String) (renderL : L → String) (t : T) (l : L)
    (hk : kd.key t = Except.ok ⟨none⟩) (hl : lb.label t = Except.ok l) :
    Tagged.tag kd lb renderK renderL t =
      Except.ok { key := "None", label := renderL l } ∧
    Tagged.has_tag kd t = false := by
  unfold Tagged.tag Tagged.has_tag
  rw [hk, hl]
  exact ⟨rfl, rfl⟩

/-- C9 witness: the theorem instantiated at a concrete record whose
key is present-but-absent and whose label is "L". -/
theorem c9_absent_key_tag_witness :
    Tagged.tag absentKeyImpl constLabelImpl (fun n => toString n) (fun s => s) () =
      Except.ok { key := "None", label := "L" } ∧
    Tagged.has_tag absentKeyImpl () = false :=
  c9_absent_key_tag absentKeyImpl constLabelImpl (fun n => toString n) (fun s => s)
    () "L" rfl rfl

end Dbent
